import Mathlib

/-!
Verification of the scripting-runtime adapter declared in
`code/components/citizen-scripting-lua/include/LuaScriptRuntime.h`.

The development shallowly embeds the C++ declarations: the engine-state
holder (`LuaStateHolder`), the runtime instance (`LuaScriptRuntime`) with
its write-once injected routines and boundary-routine slot, the
result-as-object dispatch, resource-name lookup, the bookmark scheduler
and the profiler state machine. Machine pointers that may be null are
modelled as `Option`; the observable side effects of construction and
teardown are modelled as explicit action traces.
-/

/-- Active Lua profiler state, mirroring `enum class LuaProfilingMode`. -/
inductive LuaProfilingMode : Type
  | None
  | Setup
  | Profiling
  | Shutdown
  deriving DecidableEq, Repr

namespace fx

/-- Observable side effects of `LuaStateHolder` construction and teardown:
allocation of a state via `lua_rpmalloc_state` or `luaL_newstate`, the
`lua_gc(LUA_GCGEN)` mode switch, `lua_close`, and `lua_rpmalloc_free`. -/
inductive HolderAction : Type
  | newStateRpmalloc
  | newStateDefault
  | gcSetGenerational
  | luaClose
  | rpmallocFree
  deriving DecidableEq, Repr

/-- `true` for the two state-allocation actions. -/
def HolderAction.isNewState : HolderAction → Bool
  | HolderAction.newStateRpmalloc => true
  | HolderAction.newStateDefault => true
  | _ => false

/-- The `LuaStateHolder` fields: `m_state` (a `lua_State*`, null modelled as
`none`) and `rpmalloc_data` (the rpmalloc heap pointer, present only in
`LUA_USE_RPMALLOC` builds; null modelled as `none`). Pointer values are
modelled as `Nat` handles. -/
structure LuaStateHolder where
  m_state : Option Nat
  rpmalloc_data : Option Nat
  deriving DecidableEq, Repr

/-- The `LuaStateHolder()` constructor: allocate one `lua_State` (with the
rpmalloc allocator when `LUA_USE_RPMALLOC` is defined, i.e. on `_WIN32`;
with `luaL_newstate` otherwise) and switch it to generational GC.
`useRpmalloc` models the `LUA_USE_RPMALLOC` preprocessor flag; `s` and `d`
are the allocated state handle and rpmalloc heap handle. Returns the
constructed holder together with the trace of engine calls performed. -/
def LuaStateHolder.construct (useRpmalloc : Bool) (s d : Nat) :
    LuaStateHolder × List HolderAction :=
  if useRpmalloc then
    ({ m_state := some s, rpmalloc_data := some d },
      [HolderAction.newStateRpmalloc, HolderAction.gcSetGenerational])
  else
    ({ m_state := some s, rpmalloc_data := none },
      [HolderAction.newStateDefault, HolderAction.gcSetGenerational])

/-- `LuaStateHolder::Close`: if `m_state` is non-null, call `lua_close`,
free the rpmalloc heap (in `LUA_USE_RPMALLOC` builds) and null both
fields; otherwise do nothing. Returns the new holder state and the trace
of release actions performed. -/
def LuaStateHolder.Close (useRpmalloc : Bool) (h : LuaStateHolder) :
    LuaStateHolder × List HolderAction :=
  match h.m_state with
  | some _ =>
    ({ m_state := none,
       rpmalloc_data := if useRpmalloc then none else h.rpmalloc_data },
      HolderAction.luaClose ::
        (if useRpmalloc then [HolderAction.rpmallocFree] else []))
  | none => (h, [])

/-- `LuaStateHolder::~LuaStateHolder`: the destructor body is exactly a
call to `Close()`. -/
def LuaStateHolder.destruct (useRpmalloc : Bool) (h : LuaStateHolder) :
    LuaStateHolder × List HolderAction :=
  LuaStateHolder.Close useRpmalloc h

/-- Claim C3: `LuaStateHolder::Close` is idempotent and destruction closes
the state. Closing leaves the state null; a second `Close` on the result
is a no-op that performs no release action (no double `lua_close` or
`lua_rpmalloc_free`); hence the combined action trace of closing twice
equals that of closing once; and the destructor performs exactly `Close`. -/
theorem close_idempotent_destructor_closes (u : Bool) (h : LuaStateHolder) :
    ((LuaStateHolder.Close u h).1.m_state = none) ∧
    (LuaStateHolder.Close u (LuaStateHolder.Close u h).1 =
      ((LuaStateHolder.Close u h).1, [])) ∧
    ((LuaStateHolder.Close u h).2 ++
        (LuaStateHolder.Close u (LuaStateHolder.Close u h).1).2 =
      (LuaStateHolder.Close u h).2) ∧
    (LuaStateHolder.destruct u h = LuaStateHolder.Close u h) := by
  have hclosed : (LuaStateHolder.Close u h).1.m_state = none := by
    cases hs : h.m_state <;> simp [LuaStateHolder.Close, hs]
  have hsecond : LuaStateHolder.Close u (LuaStateHolder.Close u h).1 =
      ((LuaStateHolder.Close u h).1, []) := by
    cases hs : h.m_state <;> simp [LuaStateHolder.Close, hs]
  exact ⟨hclosed, hsecond, by rw [hsecond]; simp, rfl⟩

/-- Claim C7: constructing a `LuaStateHolder` allocates exactly one engine
state, using the rpmalloc allocator when available and the default
allocator otherwise, and the full trace of engine calls is that single
allocation followed by the switch to generational GC before the
constructor returns. -/
theorem luaStateHolder_construct_spec (u : Bool) (s d : Nat) :
    (((LuaStateHolder.construct u s d).2.countP
        (fun a => HolderAction.isNewState a)) = 1) ∧
    ((LuaStateHolder.construct u s d).2 =
      [(if u then HolderAction.newStateRpmalloc else HolderAction.newStateDefault),
        HolderAction.gcSetGenerational]) ∧
    ((LuaStateHolder.construct u s d).1.m_state = some s) := by
  cases u <;>
    exact ⟨rfl, rfl, rfl⟩

/-- A value on the Lua stack (only the distinctions the adapter needs). -/
inductive LuaValue : Type
  | nil
  | boolean (b : Bool)
  | number (n : Int)
  | str (s : String)
  deriving DecidableEq, Repr

/-- A `lua_State`, modelled by its value stack (head = top of stack). -/
structure LuaState where
  stack : List LuaValue
  deriving DecidableEq, Repr

/-- `lua_pushnil`: push the nil value onto the state's stack. -/
def lua_pushnil (L : LuaState) : LuaState :=
  { stack := LuaValue.nil :: L.stack }

/-- The identity (target) of a host `TCallRefRoutine` callback. The adapter
never inspects the callable, so it is modelled by an opaque token; the
empty `std::function` is `Option.none` at the use sites. -/
abbrev TCallRefRoutine : Type := Nat

/-- The identity of a host `TDuplicateRefRoutine` callback (opaque token). -/
abbrev TDuplicateRefRoutine : Type := Nat

/-- The identity of a host `TDeleteRefRoutine` callback (opaque token). -/
abbrev TDeleteRefRoutine : Type := Nat

/-- The identity of a host `TStackTraceRoutine` callback (opaque token). -/
abbrev TStackTraceRoutine : Type := Nat

/-- A `TResultAsObjectRoutine`: `std::function<void(lua_State*, std::string_view)>`,
modelled by its effect on the Lua state. -/
abbrev TResultAsObjectRoutine : Type := LuaState → String → LuaState

/-- The `IScriptHostWithResourceData` collaborator, reduced to the one
capability the header uses: `GetResourceName(char**)` writes a resource
name or a null pointer, modelled as `Option String` (`none` = null). -/
structure IScriptHostWithResourceData where
  resourceName : Option String
  deriving DecidableEq, Repr

/-- The `LuaScriptRuntime` fields used by the claims. Each injected-routine
slot is a `std::function`, empty when default-constructed, so it is
modelled as an `Option` initialised to `none`; `m_boundaryRoutine` is an
`int` initialised to `0`. The `m_resourceHost` pointer is set during
runtime initialisation (outside this header) and is modelled as the
collaborator itself. -/
structure LuaScriptRuntime where
  m_callRefRoutine : Option TCallRefRoutine := none
  m_duplicateRefRoutine : Option TDuplicateRefRoutine := none
  m_deleteRefRoutine : Option TDeleteRefRoutine := none
  m_stackTraceRoutine : Option TStackTraceRoutine := none
  m_resultAsObjectRoutine : Option TResultAsObjectRoutine := none
  m_boundaryRoutine : Int := 0
  m_instanceId : Int
  m_resourceHost : IScriptHostWithResourceData

/-- The `LuaScriptRuntime()` constructor body is `m_instanceId = rand();`.
`rand` has no uniqueness contract, so the process-wide sequence of its
return values is modelled as an arbitrary stream `randStream`; the `k`-th
construction in the process reads `randStream k`. All routine slots start
empty and `m_boundaryRoutine` starts at `0` (member initialisers). -/
def LuaScriptRuntime.construct (randStream : Nat → Int) (k : Nat)
    (host : IScriptHostWithResourceData) : LuaScriptRuntime :=
  { m_instanceId := randStream k, m_resourceHost := host }

/-- `SetCallRefRoutine`: assign the argument only if the slot is empty
(`if (!m_callRefRoutine)`). -/
def LuaScriptRuntime.SetCallRefRoutine (self : LuaScriptRuntime)
    (routine : Option TCallRefRoutine) : LuaScriptRuntime :=
  if self.m_callRefRoutine.isNone then
    { self with m_callRefRoutine := routine }
  else
    self

/-- `SetDuplicateRefRoutine`: assign the argument only if the slot is empty. -/
def LuaScriptRuntime.SetDuplicateRefRoutine (self : LuaScriptRuntime)
    (routine : Option TDuplicateRefRoutine) : LuaScriptRuntime :=
  if self.m_duplicateRefRoutine.isNone then
    { self with m_duplicateRefRoutine := routine }
  else
    self

/-- `SetDeleteRefRoutine`: assign the argument only if the slot is empty. -/
def LuaScriptRuntime.SetDeleteRefRoutine (self : LuaScriptRuntime)
    (routine : Option TDeleteRefRoutine) : LuaScriptRuntime :=
  if self.m_deleteRefRoutine.isNone then
    { self with m_deleteRefRoutine := routine }
  else
    self

/-- `SetStackTraceRoutine`: assign the argument only if the slot is empty. -/
def LuaScriptRuntime.SetStackTraceRoutine (self : LuaScriptRuntime)
    (routine : Option TStackTraceRoutine) : LuaScriptRuntime :=
  if self.m_stackTraceRoutine.isNone then
    { self with m_stackTraceRoutine := routine }
  else
    self

/-- `SetResultAsObjectRoutine`: assign the argument only if the slot is empty. -/
def LuaScriptRuntime.SetResultAsObjectRoutine (self : LuaScriptRuntime)
    (routine : Option TResultAsObjectRoutine) : LuaScriptRuntime :=
  if self.m_resultAsObjectRoutine.isNone then
    { self with m_resultAsObjectRoutine := routine }
  else
    self

/-- `GetBoundaryRoutine`: return `m_boundaryRoutine`. -/
def LuaScriptRuntime.GetBoundaryRoutine (self : LuaScriptRuntime) : Int :=
  self.m_boundaryRoutine

/-- `SetBoundaryRoutine`: assign the argument only if `m_boundaryRoutine`
is falsy, i.e. equal to `0` (`if (!m_boundaryRoutine)`). -/
def LuaScriptRuntime.SetBoundaryRoutine (self : LuaScriptRuntime)
    (routine : Int) : LuaScriptRuntime :=
  if self.m_boundaryRoutine = 0 then
    { self with m_boundaryRoutine := routine }
  else
    self

/-- `ResultAsObject`: invoke the injected routine when present, otherwise
`lua_pushnil(L)`. -/
def LuaScriptRuntime.ResultAsObject (self : LuaScriptRuntime)
    (L : LuaState) (object : String) : LuaState :=
  match self.m_resultAsObjectRoutine with
  | some routine => routine L object
  | none => lua_pushnil L

/-- `GetResourceName`: ask `m_resourceHost` for the resource name; when the
host writes a null pointer, return the static empty string instead. The
returned `const char*` is modelled as `Option String` (`none` = null). -/
def LuaScriptRuntime.GetResourceName (self : LuaScriptRuntime) : Option String :=
  match self.m_resourceHost.resourceName with
  | none => some ""
  | some s => some s

/-- The guard shared by every write-once slot: keep the current value when
the slot is populated, take the argument otherwise. -/
def writeOnce {α : Type} (slot arg : Option α) : Option α :=
  if slot.isNone then arg else slot

/-- A populated write-once slot is never overwritten. -/
theorem writeOnce_some {α : Type} (v : α) (arg : Option α) :
    writeOnce (some v) arg = some v := rfl

/-- A populated write-once slot absorbs any further sequence of writes. -/
theorem foldl_writeOnce_some {α : Type} (v : α) (rs : List (Option α)) :
    rs.foldl writeOnce (some v) = some v := by
  induction rs with
  | nil => rfl
  | cons r rs ih => simpa [writeOnce] using ih

/-- Folding write-once over an empty slot yields the first non-empty
argument of the sequence (or stays empty). -/
theorem foldl_writeOnce_none {α : Type} (rs : List (Option α)) :
    rs.foldl writeOnce none = rs.findSome? id := by
  induction rs with
  | nil => rfl
  | cons r rs ih =>
    cases r with
    | none => simpa [writeOnce, List.findSome?] using ih
    | some v => simp [writeOnce, List.findSome?, foldl_writeOnce_some]

/-- Slot view of `SetCallRefRoutine`: the slot evolves by `writeOnce`. -/
theorem SetCallRefRoutine_slot (self : LuaScriptRuntime) (r : Option TCallRefRoutine) :
    (self.SetCallRefRoutine r).m_callRefRoutine = writeOnce self.m_callRefRoutine r := by
  cases h : self.m_callRefRoutine <;>
    simp [LuaScriptRuntime.SetCallRefRoutine, writeOnce, h]

/-- Slot view of a call sequence to `SetCallRefRoutine`. -/
theorem foldl_SetCallRefRoutine (rs : List (Option TCallRefRoutine)) (self : LuaScriptRuntime) :
    (rs.foldl LuaScriptRuntime.SetCallRefRoutine self).m_callRefRoutine =
      rs.foldl writeOnce self.m_callRefRoutine := by
  induction rs generalizing self with
  | nil => rfl
  | cons r rs ih =>
    rw [List.foldl_cons, List.foldl_cons, ih, SetCallRefRoutine_slot]

/-- `SetCallRefRoutine` on a populated slot is the identity. -/
theorem SetCallRefRoutine_noop (self : LuaScriptRuntime) (r : Option TCallRefRoutine)
    (h : self.m_callRefRoutine.isSome = true) : self.SetCallRefRoutine r = self := by
  cases hs : self.m_callRefRoutine with
  | none => simp [hs] at h
  | some v => simp [LuaScriptRuntime.SetCallRefRoutine, hs]

/-- Slot view of `SetDuplicateRefRoutine`. -/
theorem SetDuplicateRefRoutine_slot (self : LuaScriptRuntime) (r : Option TDuplicateRefRoutine) :
    (self.SetDuplicateRefRoutine r).m_duplicateRefRoutine =
      writeOnce self.m_duplicateRefRoutine r := by
  cases h : self.m_duplicateRefRoutine <;>
    simp [LuaScriptRuntime.SetDuplicateRefRoutine, writeOnce, h]

/-- Slot view of a call sequence to `SetDuplicateRefRoutine`. -/
theorem foldl_SetDuplicateRefRoutine (rs : List (Option TDuplicateRefRoutine))
    (self : LuaScriptRuntime) :
    (rs.foldl LuaScriptRuntime.SetDuplicateRefRoutine self).m_duplicateRefRoutine =
      rs.foldl writeOnce self.m_duplicateRefRoutine := by
  induction rs generalizing self with
  | nil => rfl
  | cons r rs ih =>
    rw [List.foldl_cons, List.foldl_cons, ih, SetDuplicateRefRoutine_slot]

/-- `SetDuplicateRefRoutine` on a populated slot is the identity. -/
theorem SetDuplicateRefRoutine_noop (self : LuaScriptRuntime) (r : Option TDuplicateRefRoutine)
    (h : self.m_duplicateRefRoutine.isSome = true) : self.SetDuplicateRefRoutine r = self := by
  cases hs : self.m_duplicateRefRoutine with
  | none => simp [hs] at h
  | some v => simp [LuaScriptRuntime.SetDuplicateRefRoutine, hs]

/-- Slot view of `SetDeleteRefRoutine`. -/
theorem SetDeleteRefRoutine_slot (self : LuaScriptRuntime) (r : Option TDeleteRefRoutine) :
    (self.SetDeleteRefRoutine r).m_deleteRefRoutine = writeOnce self.m_deleteRefRoutine r := by
  cases h : self.m_deleteRefRoutine <;>
    simp [LuaScriptRuntime.SetDeleteRefRoutine, writeOnce, h]

/-- Slot view of a call sequence to `SetDeleteRefRoutine`. -/
theorem foldl_SetDeleteRefRoutine (rs : List (Option TDeleteRefRoutine))
    (self : LuaScriptRuntime) :
    (rs.foldl LuaScriptRuntime.SetDeleteRefRoutine self).m_deleteRefRoutine =
      rs.foldl writeOnce self.m_deleteRefRoutine := by
  induction rs generalizing self with
  | nil => rfl
  | cons r rs ih =>
    rw [List.foldl_cons, List.foldl_cons, ih, SetDeleteRefRoutine_slot]

/-- `SetDeleteRefRoutine` on a populated slot is the identity. -/
theorem SetDeleteRefRoutine_noop (self : LuaScriptRuntime) (r : Option TDeleteRefRoutine)
    (h : self.m_deleteRefRoutine.isSome = true) : self.SetDeleteRefRoutine r = self := by
  cases hs : self.m_deleteRefRoutine with
  | none => simp [hs] at h
  | some v => simp [LuaScriptRuntime.SetDeleteRefRoutine, hs]

/-- Slot view of `SetStackTraceRoutine`. -/
theorem SetStackTraceRoutine_slot (self : LuaScriptRuntime) (r : Option TStackTraceRoutine) :
    (self.SetStackTraceRoutine r).m_stackTraceRoutine =
      writeOnce self.m_stackTraceRoutine r := by
  cases h : self.m_stackTraceRoutine <;>
    simp [LuaScriptRuntime.SetStackTraceRoutine, writeOnce, h]

/-- Slot view of a call sequence to `SetStackTraceRoutine`. -/
theorem foldl_SetStackTraceRoutine (rs : List (Option TStackTraceRoutine))
    (self : LuaScriptRuntime) :
    (rs.foldl LuaScriptRuntime.SetStackTraceRoutine self).m_stackTraceRoutine =
      rs.foldl writeOnce self.m_stackTraceRoutine := by
  induction rs generalizing self with
  | nil => rfl
  | cons r rs ih =>
    rw [List.foldl_cons, List.foldl_cons, ih, SetStackTraceRoutine_slot]

/-- `SetStackTraceRoutine` on a populated slot is the identity. -/
theorem SetStackTraceRoutine_noop (self : LuaScriptRuntime) (r : Option TStackTraceRoutine)
    (h : self.m_stackTraceRoutine.isSome = true) : self.SetStackTraceRoutine r = self := by
  cases hs : self.m_stackTraceRoutine with
  | none => simp [hs] at h
  | some v => simp [LuaScriptRuntime.SetStackTraceRoutine, hs]

/-- Slot view of `SetResultAsObjectRoutine`. -/
theorem SetResultAsObjectRoutine_slot (self : LuaScriptRuntime)
    (r : Option TResultAsObjectRoutine) :
    (self.SetResultAsObjectRoutine r).m_resultAsObjectRoutine =
      writeOnce self.m_resultAsObjectRoutine r := by
  cases h : self.m_resultAsObjectRoutine <;>
    simp [LuaScriptRuntime.SetResultAsObjectRoutine, writeOnce, h]

/-- Slot view of a call sequence to `SetResultAsObjectRoutine`. -/
theorem foldl_SetResultAsObjectRoutine (rs : List (Option TResultAsObjectRoutine))
    (self : LuaScriptRuntime) :
    (rs.foldl LuaScriptRuntime.SetResultAsObjectRoutine self).m_resultAsObjectRoutine =
      rs.foldl writeOnce self.m_resultAsObjectRoutine := by
  induction rs generalizing self with
  | nil => rfl
  | cons r rs ih =>
    rw [List.foldl_cons, List.foldl_cons, ih, SetResultAsObjectRoutine_slot]

/-- `SetResultAsObjectRoutine` on a populated slot is the identity. -/
theorem SetResultAsObjectRoutine_noop (self : LuaScriptRuntime)
    (r : Option TResultAsObjectRoutine)
    (h : self.m_resultAsObjectRoutine.isSome = true) :
    self.SetResultAsObjectRoutine r = self := by
  cases hs : self.m_resultAsObjectRoutine with
  | none => simp [hs] at h
  | some v => simp [LuaScriptRuntime.SetResultAsObjectRoutine, hs]

/-- A host collaborator whose `GetResourceName` writes a null pointer. -/
def host0 : IScriptHostWithResourceData := { resourceName := none }

/-- A freshly constructed runtime instance (all slots at their member
initialisers), built from the constant-zero `rand` stream and `host0`. -/
def rt0 : LuaScriptRuntime := LuaScriptRuntime.construct (fun _ => 0) 0 host0

/-- A concrete result-as-object routine: leave the Lua state unchanged. -/
def idResultRoutine : TResultAsObjectRoutine := fun L _ => L

/-- `rt0` after injecting `idResultRoutine`. -/
def rtR : LuaScriptRuntime := rt0.SetResultAsObjectRoutine (some idResultRoutine)

/-- A Lua state with an empty stack. -/
def L0 : LuaState := { stack := [] }

/-- The first nonzero identifier in a list, `0` if there is none. -/
def firstNonzero : List Int → Int
  | [] => 0
  | r :: rs => if r = 0 then firstNonzero rs else r

/-- `SetBoundaryRoutine` on a nonzero slot is the identity. -/
theorem SetBoundaryRoutine_noop (self : LuaScriptRuntime) (r : Int)
    (h : self.m_boundaryRoutine ≠ 0) : self.SetBoundaryRoutine r = self := by
  simp [LuaScriptRuntime.SetBoundaryRoutine, h]

/-- A call sequence to `SetBoundaryRoutine` on a nonzero slot is the identity. -/
theorem foldl_SetBoundaryRoutine_noop (rs : List Int) (self : LuaScriptRuntime)
    (h : self.m_boundaryRoutine ≠ 0) :
    rs.foldl LuaScriptRuntime.SetBoundaryRoutine self = self := by
  induction rs with
  | nil => rfl
  | cons r rs ih =>
    rw [List.foldl_cons, SetBoundaryRoutine_noop self r h, ih]

/-- From a zero slot, a call sequence to `SetBoundaryRoutine` leaves the
first nonzero identifier in the slot. -/
theorem foldl_SetBoundaryRoutine (rs : List Int) (self : LuaScriptRuntime)
    (h : self.m_boundaryRoutine = 0) :
    (rs.foldl LuaScriptRuntime.SetBoundaryRoutine self).m_boundaryRoutine =
      firstNonzero rs := by
  induction rs generalizing self with
  | nil => simpa [firstNonzero] using h
  | cons r rs ih =>
    rw [List.foldl_cons]
    by_cases hr : r = 0
    · subst hr
      rw [ih (self.SetBoundaryRoutine 0)
        (by simp [LuaScriptRuntime.SetBoundaryRoutine, h])]
      simp [firstNonzero]
    · rw [foldl_SetBoundaryRoutine_noop rs (self.SetBoundaryRoutine r)
        (by simp [LuaScriptRuntime.SetBoundaryRoutine, h, hr])]
      simp [LuaScriptRuntime.SetBoundaryRoutine, h, firstNonzero, hr]

/-- Claim C1 counterexample: `m_instanceId = rand()`, and `rand` carries no
uniqueness guarantee. Under a `rand` stream that repeats a value (here the
constant stream `42`), two distinct constructions (indices `0` and `1`)
receive equal instance ids, refuting process-uniqueness. -/
theorem instanceId_collision_at_constant_rand :
    ((LuaScriptRuntime.construct (fun _ => 42) 0 host0).m_instanceId =
      (LuaScriptRuntime.construct (fun _ => 42) 1 host0).m_instanceId) ∧
    (0 : Nat) ≠ 1 :=
  ⟨rfl, by decide⟩

/-- Claim C1 (amended): each constructed instance's id is exactly the
`rand()` value drawn at its construction; two instances have distinct ids
precisely when their draws from the `rand` stream differ — uniqueness is
not guaranteed by the code itself. -/
theorem instanceId_equals_rand_value (randStream : Nat → Int) (k : Nat)
    (host : IScriptHostWithResourceData) :
    ((LuaScriptRuntime.construct randStream k host).m_instanceId = randStream k) ∧
    (∀ (k2 : Nat) (host2 : IScriptHostWithResourceData),
      randStream k ≠ randStream k2 →
        (LuaScriptRuntime.construct randStream k host).m_instanceId ≠
          (LuaScriptRuntime.construct randStream k2 host2).m_instanceId) :=
  ⟨rfl, fun _ _ hne => hne⟩

/-- Witness for the amended claim C1 at the identity stream and indices 0, 1. -/
theorem instanceId_equals_rand_value_witness :
    ((LuaScriptRuntime.construct (fun n => (n : Int)) 0 host0).m_instanceId =
      (fun n => (n : Int)) 0) ∧
    ((LuaScriptRuntime.construct (fun n => (n : Int)) 0 host0).m_instanceId ≠
      (LuaScriptRuntime.construct (fun n => (n : Int)) 1 host0).m_instanceId) :=
  ⟨(instanceId_equals_rand_value (fun n => (n : Int)) 0 host0).1,
    (instanceId_equals_rand_value (fun n => (n : Int)) 0 host0).2 1 host0 (by decide)⟩

/-- Claim C2 counterexample: the setters guard on slot emptiness, not on
"a set occurred". Calling `SetCallRefRoutine` first with the empty
`std::function` leaves the slot empty, and a second call then populates
it — so the second call is not a no-op, refuting "only the first call
populates the slot and every later call is a no-op". -/
theorem setCallRefRoutine_second_call_populates :
    ((rt0.SetCallRefRoutine none).m_callRefRoutine = none) ∧
    (((rt0.SetCallRefRoutine none).SetCallRefRoutine (some 5)).m_callRefRoutine =
      some 5) ∧
    ((rt0.SetCallRefRoutine none).SetCallRefRoutine (some 5) ≠
      rt0.SetCallRefRoutine none) :=
  ⟨rfl, rfl, fun hc =>
    absurd (congrArg LuaScriptRuntime.m_callRefRoutine hc) (by decide)⟩

/-- Claim C2 (amended): each injected-routine setter populates its slot
only while the slot is empty, so over any call sequence the first
non-empty routine wins and, once the slot is populated, every later call
is a no-op; calls passing an empty routine never populate the slot. -/
theorem routine_setters_first_nonempty_wins (self : LuaScriptRuntime) :
    ((self.m_callRefRoutine = none →
        ∀ rs : List (Option TCallRefRoutine),
          (rs.foldl LuaScriptRuntime.SetCallRefRoutine self).m_callRefRoutine =
            rs.findSome? id) ∧
      (self.m_callRefRoutine.isSome = true →
        ∀ r, self.SetCallRefRoutine r = self)) ∧
    ((self.m_duplicateRefRoutine = none →
        ∀ rs : List (Option TDuplicateRefRoutine),
          (rs.foldl LuaScriptRuntime.SetDuplicateRefRoutine self).m_duplicateRefRoutine =
            rs.findSome? id) ∧
      (self.m_duplicateRefRoutine.isSome = true →
        ∀ r, self.SetDuplicateRefRoutine r = self)) ∧
    ((self.m_deleteRefRoutine = none →
        ∀ rs : List (Option TDeleteRefRoutine),
          (rs.foldl LuaScriptRuntime.SetDeleteRefRoutine self).m_deleteRefRoutine =
            rs.findSome? id) ∧
      (self.m_deleteRefRoutine.isSome = true →
        ∀ r, self.SetDeleteRefRoutine r = self)) ∧
    ((self.m_stackTraceRoutine = none →
        ∀ rs : List (Option TStackTraceRoutine),
          (rs.foldl LuaScriptRuntime.SetStackTraceRoutine self).m_stackTraceRoutine =
            rs.findSome? id) ∧
      (self.m_stackTraceRoutine.isSome = true →
        ∀ r, self.SetStackTraceRoutine r = self)) ∧
    ((self.m_resultAsObjectRoutine = none →
        ∀ rs : List (Option TResultAsObjectRoutine),
          (rs.foldl LuaScriptRuntime.SetResultAsObjectRoutine self).m_resultAsObjectRoutine =
            rs.findSome? id) ∧
      (self.m_resultAsObjectRoutine.isSome = true →
        ∀ r, self.SetResultAsObjectRoutine r = self)) := by
  refine ⟨⟨?_, ?_⟩, ⟨?_, ?_⟩, ⟨?_, ?_⟩, ⟨?_, ?_⟩, ⟨?_, ?_⟩⟩
  · intro h rs
    rw [foldl_SetCallRefRoutine, h, foldl_writeOnce_none]
  · intro h r
    exact SetCallRefRoutine_noop self r h
  · intro h rs
    rw [foldl_SetDuplicateRefRoutine, h, foldl_writeOnce_none]
  · intro h r
    exact SetDuplicateRefRoutine_noop self r h
  · intro h rs
    rw [foldl_SetDeleteRefRoutine, h, foldl_writeOnce_none]
  · intro h r
    exact SetDeleteRefRoutine_noop self r h
  · intro h rs
    rw [foldl_SetStackTraceRoutine, h, foldl_writeOnce_none]
  · intro h r
    exact SetStackTraceRoutine_noop self r h
  · intro h rs
    rw [foldl_SetResultAsObjectRoutine, h, foldl_writeOnce_none]
  · intro h r
    exact SetResultAsObjectRoutine_noop self r h

/-- Witness for the amended claim C2: on a fresh runtime, the sequence
`[some 3, some 7]` of `SetCallRefRoutine` calls leaves routine `3` in the
slot, and a populated `SetStackTraceRoutine` slot makes a later call a
no-op. -/
theorem routine_setters_first_nonempty_wins_witness :
    (([some 3, some 7].foldl LuaScriptRuntime.SetCallRefRoutine rt0).m_callRefRoutine =
      List.findSome? id [some 3, some 7]) ∧
    ((rt0.SetStackTraceRoutine (some 4)).SetStackTraceRoutine (some 9) =
      rt0.SetStackTraceRoutine (some 4)) :=
  ⟨(routine_setters_first_nonempty_wins rt0).1.1 rfl [some 3, some 7],
    (routine_setters_first_nonempty_wins
      (rt0.SetStackTraceRoutine (some 4))).2.2.2.1.2 rfl (some 9)⟩

/-- Claim C4 counterexample: the set-once guard of `SetBoundaryRoutine`
tests the stored `int` against zero. After the call sequence `[0, 5]` the
recorded identifier is `5`, not the first registered identifier `0` — a
later call did overwrite the first registration. -/
theorem setBoundaryRoutine_zero_then_overwritten :
    (((rt0.SetBoundaryRoutine 0).SetBoundaryRoutine 5).GetBoundaryRoutine = 5) ∧
    (((rt0.SetBoundaryRoutine 0).SetBoundaryRoutine 5).GetBoundaryRoutine ≠ 0) :=
  ⟨rfl, by decide⟩

/-- Claim C4 (amended): the boundary-routine slot is set-once with respect
to nonzero identifiers: once `m_boundaryRoutine` is nonzero every later
`SetBoundaryRoutine` call is a no-op, and starting from the initial zero
slot a call sequence records exactly its first nonzero identifier, which
`GetBoundaryRoutine` then returns unchanged. -/
theorem boundaryRoutine_first_nonzero_wins (self : LuaScriptRuntime) :
    (self.m_boundaryRoutine ≠ 0 → ∀ r, self.SetBoundaryRoutine r = self) ∧
    (self.m_boundaryRoutine = 0 →
      ∀ rs : List Int,
        (rs.foldl LuaScriptRuntime.SetBoundaryRoutine self).GetBoundaryRoutine =
          firstNonzero rs) :=
  ⟨fun h r => SetBoundaryRoutine_noop self r h,
    fun h rs => foldl_SetBoundaryRoutine rs self h⟩

/-- Witness for the amended claim C4: on a fresh runtime the sequence
`[3, 5]` records `3`, and a slot holding `7` ignores a later `9`. -/
theorem boundaryRoutine_first_nonzero_wins_witness :
    (([3, 5].foldl LuaScriptRuntime.SetBoundaryRoutine rt0).GetBoundaryRoutine =
      firstNonzero [3, 5]) ∧
    ((rt0.SetBoundaryRoutine 7).SetBoundaryRoutine 9 = rt0.SetBoundaryRoutine 7) :=
  ⟨(boundaryRoutine_first_nonzero_wins rt0).2 rfl [3, 5],
    (boundaryRoutine_first_nonzero_wins (rt0.SetBoundaryRoutine 7)).1 (by decide) 9⟩

/-- Claim C8: `ResultAsObject` with no injected routine pushes nil onto
the Lua stack (the engine's "no value") and does nothing else; with an
injected routine it invokes that routine on the given state and object
string. -/
theorem resultAsObject_spec (self : LuaScriptRuntime) (L : LuaState) (object : String) :
    (self.m_resultAsObjectRoutine = none →
      self.ResultAsObject L object = lua_pushnil L ∧
      (self.ResultAsObject L object).stack = LuaValue.nil :: L.stack) ∧
    (∀ routine, self.m_resultAsObjectRoutine = some routine →
      self.ResultAsObject L object = routine L object) := by
  constructor
  · intro h
    constructor <;> simp [LuaScriptRuntime.ResultAsObject, h, lua_pushnil]
  · intro routine h
    simp [LuaScriptRuntime.ResultAsObject, h]

/-- Witness for claim C8 on the empty-slot runtime `rt0` (push nil) and on
`rtR` with the injected `idResultRoutine`. -/
theorem resultAsObject_spec_witness :
    (rt0.ResultAsObject L0 "obj" = lua_pushnil L0) ∧
    ((rt0.ResultAsObject L0 "obj").stack = LuaValue.nil :: L0.stack) ∧
    (rtR.ResultAsObject L0 "obj" = idResultRoutine L0 "obj") :=
  ⟨((resultAsObject_spec rt0 L0 "obj").1 rfl).1,
    ((resultAsObject_spec rt0 L0 "obj").1 rfl).2,
    (resultAsObject_spec rtR L0 "obj").2 idResultRoutine rfl⟩

/-- Claim C9: `GetResourceName` never returns a null pointer: the result
is always a valid string, and when the resource host writes null the
function returns the static empty string. -/
theorem getResourceName_not_null (self : LuaScriptRuntime) :
    ((self.GetResourceName).isSome = true) ∧
    (self.m_resourceHost.resourceName = none → self.GetResourceName = some "") := by
  constructor
  · cases h : self.m_resourceHost.resourceName <;>
      simp [LuaScriptRuntime.GetResourceName, h]
  · intro h
    simp [LuaScriptRuntime.GetResourceName, h]

/-- Witness for claim C9 on `rt0`, whose host writes a null resource name. -/
theorem getResourceName_not_null_witness :
    ((rt0.GetResourceName).isSome = true) ∧ (rt0.GetResourceName = some "") :=
  ⟨(getResourceName_not_null rt0).1, (getResourceName_not_null rt0).2 rfl⟩

/-- Claim C10: the set-once guard of `SetBoundaryRoutine` tests the stored
value against zero, not whether a set occurred: from a zero slot, calling
`SetBoundaryRoutine(0)` leaves the slot unpopulated (still zero), so a
subsequent call with a nonzero identifier still records that identifier. -/
theorem setBoundaryRoutine_zero_guard (self : LuaScriptRuntime) (r : Int)
    (h0 : self.m_boundaryRoutine = 0) :
    ((self.SetBoundaryRoutine 0).m_boundaryRoutine = 0) ∧
    (r ≠ 0 →
      ((self.SetBoundaryRoutine 0).SetBoundaryRoutine r).GetBoundaryRoutine = r) := by
  constructor
  · simp [LuaScriptRuntime.SetBoundaryRoutine, h0]
  · intro hr
    simp [LuaScriptRuntime.SetBoundaryRoutine, LuaScriptRuntime.GetBoundaryRoutine, h0]

/-- Witness for claim C10 on `rt0` with the nonzero identifier `7`. -/
theorem setBoundaryRoutine_zero_guard_witness :
    ((rt0.SetBoundaryRoutine 0).m_boundaryRoutine = 0) ∧
    (((rt0.SetBoundaryRoutine 0).SetBoundaryRoutine 7).GetBoundaryRoutine = 7) :=
  ⟨(setBoundaryRoutine_zero_guard rt0 7 rfl).1,
    (setBoundaryRoutine_zero_guard rt0 7 rfl).2 (by decide)⟩

/-- Modelled from the spec: a pending bookmark, "a pair (due-time-or-token,
bookmark-identifier)", the element type of `m_pendingBookmarks`
(`std::list<std::tuple<uint64_t, int>>`). `seq` is the insertion sequence
number used to break due-time ties, per "ties broken by insertion order". -/
structure PendingBookmark where
  due : Nat
  seq : Nat
  bookmark : Nat
  deriving DecidableEq, Repr

/-- Dispatch precedence between pending bookmarks: earlier due time first,
ties broken by insertion order. -/
def pendingLT (a b : PendingBookmark) : Prop :=
  a.due < b.due ∨ (a.due = b.due ∧ a.seq < b.seq)

instance : DecidableRel pendingLT := fun a b =>
  inferInstanceAs (Decidable (a.due < b.due ∨ (a.due = b.due ∧ a.seq < b.seq)))

/-- Modelled from the spec: the scheduler state behind `m_pendingBookmarks`;
the bodies of `ScheduleBookmarkSoon` and `SchedulePendingBookmarks` are
declared but not defined in this header. `nextSeq` counts insertions. -/
structure BookmarkScheduler where
  m_pendingBookmarks : List PendingBookmark
  nextSeq : Nat
  deriving DecidableEq, Repr

/-- The scheduler invariant: the pending list is kept in dispatch order
(strictly increasing by `pendingLT`, which holds since sequence numbers
are unique) and every recorded sequence number predates `nextSeq`. -/
def SchedulerInv (s : BookmarkScheduler) : Prop :=
  s.m_pendingBookmarks.Pairwise pendingLT ∧
  ∀ e ∈ s.m_pendingBookmarks, e.seq < s.nextSeq

instance (s : BookmarkScheduler) : Decidable (SchedulerInv s) :=
  inferInstanceAs (Decidable (s.m_pendingBookmarks.Pairwise pendingLT ∧
    ∀ e ∈ s.m_pendingBookmarks, e.seq < s.nextSeq))

/-- Insert a pending entry behind every entry whose due time is not later,
so equal due times keep insertion order. -/
def insertPending (e : PendingBookmark) : List PendingBookmark → List PendingBookmark
  | [] => [e]
  | x :: xs => if x.due ≤ e.due then x :: insertPending e xs else e :: x :: xs

/-- Modelled from the spec: `ScheduleBookmarkSoon(bookmark, timeout)`
"inserts a Pending entry keyed by a due-time derived from now + timeout;
ties broken by insertion order". `now` is the current tick time. -/
def ScheduleBookmarkSoon (s : BookmarkScheduler) (now : Nat) (bookmark : Nat)
    (timeout : Nat) : BookmarkScheduler :=
  { m_pendingBookmarks :=
      insertPending { due := now + timeout, seq := s.nextSeq, bookmark := bookmark }
        s.m_pendingBookmarks,
    nextSeq := s.nextSeq + 1 }

/-- Modelled from the spec: `SchedulePendingBookmarks` (the per-tick drain)
"scans pending entries in due-time order and dispatches every entry whose
due-time has elapsed; entries not yet due remain queued". Returns the new
scheduler state and the dispatched entries in dispatch order. -/
def SchedulePendingBookmarks (s : BookmarkScheduler) (now : Nat) :
    BookmarkScheduler × List PendingBookmark :=
  ({ m_pendingBookmarks :=
      s.m_pendingBookmarks.dropWhile (fun e => decide (e.due ≤ now)),
     nextSeq := s.nextSeq },
   s.m_pendingBookmarks.takeWhile (fun e => decide (e.due ≤ now)))

/-- Membership in `insertPending`: the new entry plus the old entries. -/
theorem mem_insertPending (e a : PendingBookmark) (l : List PendingBookmark) :
    a ∈ insertPending e l ↔ a = e ∨ a ∈ l := by
  induction l with
  | nil => simp [insertPending]
  | cons x xs ih =>
    by_cases h : x.due ≤ e.due
    · simp [insertPending, h, ih]
      tauto
    · simp [insertPending, h]

/-- `insertPending` keeps the list in dispatch order when the new entry's
sequence number is fresh. -/
theorem pairwise_insertPending (e : PendingBookmark) (l : List PendingBookmark)
    (hl : l.Pairwise pendingLT) (hseq : ∀ x ∈ l, x.seq < e.seq) :
    (insertPending e l).Pairwise pendingLT := by
  induction l with
  | nil => simp [insertPending]
  | cons x xs ih =>
    rcases List.pairwise_cons.1 hl with ⟨hx, hxs⟩
    by_cases h : x.due ≤ e.due
    · simp only [insertPending, if_pos h]
      refine List.pairwise_cons.2 ⟨?_, ih hxs fun y hy => hseq y (List.mem_cons_of_mem x hy)⟩
      intro y hy
      rcases (mem_insertPending e y xs).1 hy with rfl | hy2
      · rcases lt_or_eq_of_le h with hlt | heq
        · exact Or.inl hlt
        · exact Or.inr ⟨heq, hseq x (List.mem_cons_self x xs)⟩
      · exact hx y hy2
    · push_neg at h
      simp only [insertPending, if_neg (not_le.2 h)]
      refine List.pairwise_cons.2 ⟨?_, hl⟩
      intro y hy
      rcases List.mem_cons.1 hy with rfl | hy2
      · exact Or.inl h
      · have hxy : x.due ≤ y.due := by
          rcases hx y hy2 with h1 | ⟨h1, _⟩
          · exact le_of_lt h1
          · exact le_of_eq h1
        exact Or.inl (lt_of_lt_of_le h hxy)

/-- Every element taken by the drain satisfies the due predicate and was
pending. -/
theorem mem_takeWhile_due (p : PendingBookmark → Bool) :
    ∀ (l : List PendingBookmark) (a : PendingBookmark),
      a ∈ l.takeWhile p → p a = true ∧ a ∈ l := by
  intro l
  induction l with
  | nil => intro a h; simp [List.takeWhile] at h
  | cons x xs ih =>
    intro a h
    by_cases hp : p x = true
    · simp only [List.takeWhile, hp] at h
      rcases List.mem_cons.1 h with rfl | h2
      · exact ⟨hp, List.mem_cons_self a xs⟩
      · rcases ih a h2 with ⟨h3, h4⟩
        exact ⟨h3, List.mem_cons_of_mem x h4⟩
    · have hpf : p x = false := by simpa using hp
      simp [List.takeWhile, hpf] at h

/-- In a dispatch-ordered pending list, every entry already due is taken
by the drain. -/
theorem mem_takeWhile_of_due_le (now : Nat) :
    ∀ l : List PendingBookmark, l.Pairwise pendingLT →
      ∀ a ∈ l, a.due ≤ now →
        a ∈ l.takeWhile (fun e => decide (e.due ≤ now)) := by
  intro l
  induction l with
  | nil => intro _ a ha; cases ha
  | cons x xs ih =>
    intro hpw a ha hdue
    rcases List.pairwise_cons.1 hpw with ⟨hx, hxs⟩
    rcases List.mem_cons.1 ha with rfl | ha2
    · simp only [List.takeWhile, decide_eq_true hdue]
      exact List.mem_cons_self a _
    · have hxa : x.due ≤ a.due := by
        rcases hx a ha2 with h1 | ⟨h1, _⟩
        · exact le_of_lt h1
        · exact le_of_eq h1
      simp only [List.takeWhile, decide_eq_true (le_trans hxa hdue)]
      exact List.mem_cons_of_mem x (ih hxs a ha2 hdue)

/-- An entry not yet due survives the drain. -/
theorem mem_dropWhile_of_not_due (now : Nat) :
    ∀ (l : List PendingBookmark) (a : PendingBookmark), a ∈ l → now < a.due →
      a ∈ l.dropWhile (fun e => decide (e.due ≤ now)) := by
  intro l
  induction l with
  | nil => intro a ha; cases ha
  | cons x xs ih =>
    intro a ha hdue
    by_cases hx : x.due ≤ now
    · have hax : a ≠ x := by
        intro h
        rw [h] at hdue
        omega
      simp only [List.dropWhile, decide_eq_true hx]
      rcases List.mem_cons.1 ha with rfl | ha2
      · exact absurd rfl hax
      · exact ih a ha2 hdue
    · have : decide (x.due ≤ now) = false := decide_eq_false hx
      simp only [List.dropWhile, this]
      exact ha

/-- Claim C5: a bookmark scheduled with timeout `T` at tick time `t0`
enters the pending set with due time `t0 + T`; a drain at tick time `now`
dispatches exactly the pending entries whose due time is at most `now`
(so the bookmark is dispatched by the first drain at or after `t0 + T`
and never before, remaining pending across earlier drains); dispatch
order is non-decreasing due time with ties broken by insertion order; and
both scheduling and draining preserve the scheduler invariant, so this
holds at every drain. -/
theorem bookmark_dispatch_spec (s : BookmarkScheduler) (now : Nat)
    (hinv : SchedulerInv s) :
    (∀ t0 T bm,
      ({ due := t0 + T, seq := s.nextSeq, bookmark := bm } : PendingBookmark) ∈
        (ScheduleBookmarkSoon s t0 bm T).m_pendingBookmarks) ∧
    (∀ e ∈ (SchedulePendingBookmarks s now).2, e.due ≤ now) ∧
    (∀ e ∈ s.m_pendingBookmarks, e.due ≤ now →
      e ∈ (SchedulePendingBookmarks s now).2) ∧
    (∀ e ∈ s.m_pendingBookmarks, now < e.due →
      e ∈ (SchedulePendingBookmarks s now).1.m_pendingBookmarks) ∧
    ((SchedulePendingBookmarks s now).2.Pairwise pendingLT) ∧
    SchedulerInv (SchedulePendingBookmarks s now).1 ∧
    (∀ t0 T bm, SchedulerInv (ScheduleBookmarkSoon s t0 bm T)) := by
  obtain ⟨hpw, hseq⟩ := hinv
  refine ⟨?_, ?_, ?_, ?_, ?_, ⟨?_, ?_⟩, ?_⟩
  · intro t0 T bm
    exact (mem_insertPending _ _ _).2 (Or.inl rfl)
  · intro e he
    exact of_decide_eq_true (mem_takeWhile_due _ _ e he).1
  · intro e he hdue
    exact mem_takeWhile_of_due_le now s.m_pendingBookmarks hpw e he hdue
  · intro e he hdue
    exact mem_dropWhile_of_not_due now s.m_pendingBookmarks e he hdue
  · exact List.Pairwise.sublist (List.takeWhile_prefix _).sublist hpw
  · exact List.Pairwise.sublist (List.dropWhile_suffix _).sublist hpw
  · intro e he
    exact hseq e ((List.dropWhile_suffix _).sublist.subset he)
  · intro t0 T bm
    constructor
    · exact pairwise_insertPending _ _ hpw fun x hx => hseq x hx
    · intro e he
      rcases (mem_insertPending _ _ _).1 he with rfl | he2
      · exact Nat.lt_succ_self _
      · exact Nat.lt_succ_of_lt (hseq e he2)

/-- A concrete scheduler: one bookmark pending with due time 3. -/
def sW : BookmarkScheduler :=
  { m_pendingBookmarks := [{ due := 3, seq := 0, bookmark := 9 }], nextSeq := 1 }

/-- Witness for claim C5 on `sW`: a drain at tick 2 keeps the bookmark
pending (2 < 3), and a drain at tick 3 dispatches it. -/
theorem bookmark_dispatch_spec_witness :
    SchedulerInv sW ∧
    (({ due := 3, seq := 0, bookmark := 9 } : PendingBookmark) ∈
      (SchedulePendingBookmarks sW 2).1.m_pendingBookmarks) ∧
    (({ due := 3, seq := 0, bookmark := 9 } : PendingBookmark) ∈
      (SchedulePendingBookmarks sW 3).2) ∧
    (∀ e ∈ (SchedulePendingBookmarks sW 2).2, e.due ≤ 2) :=
  ⟨by decide,
    (bookmark_dispatch_spec sW 2 (by decide)).2.2.2.1 _ (by decide) (by decide),
    (bookmark_dispatch_spec sW 3 (by decide)).2.2.1 _ (by decide) (by decide),
    (bookmark_dispatch_spec sW 2 (by decide)).2.1⟩

/-- An edge of the profiler cycle `None → Setup → Profiling → Shutdown → None`. -/
def cycleEdge : LuaProfilingMode → LuaProfilingMode → Prop := fun a b =>
  (a = LuaProfilingMode.None ∧ b = LuaProfilingMode.Setup) ∨
  (a = LuaProfilingMode.Setup ∧ b = LuaProfilingMode.Profiling) ∨
  (a = LuaProfilingMode.Profiling ∧ b = LuaProfilingMode.Shutdown) ∨
  (a = LuaProfilingMode.Shutdown ∧ b = LuaProfilingMode.None)

instance : DecidableRel cycleEdge := fun a b =>
  inferInstanceAs (Decidable
    ((a = LuaProfilingMode.None ∧ b = LuaProfilingMode.Setup) ∨
      (a = LuaProfilingMode.Setup ∧ b = LuaProfilingMode.Profiling) ∨
      (a = LuaProfilingMode.Profiling ∧ b = LuaProfilingMode.Shutdown) ∨
      (a = LuaProfilingMode.Shutdown ∧ b = LuaProfilingMode.None)))

/-- Modelled from the spec: `IScriptProfiler_Tick(begin)` is declared but
not defined in this header. Per the spec, `begin = true` moves
`None → Setup → Profiling` and `begin = false` moves
`Profiling → Shutdown → None`; `begin = true` while already `Profiling`
and `begin = false` while `None` are no-ops, and the spec drives
`m_profilingMode` through no other transition (the transient `Setup` and
`Shutdown` modes never persist across calls). Returns the final mode
together with the trace of modes passed through during the call. -/
def IScriptProfiler_Tick (m : LuaProfilingMode) (begin_ : Bool) :
    LuaProfilingMode × List LuaProfilingMode :=
  match m, begin_ with
  | LuaProfilingMode.None, true =>
    (LuaProfilingMode.Profiling, [LuaProfilingMode.Setup, LuaProfilingMode.Profiling])
  | LuaProfilingMode.Profiling, false =>
    (LuaProfilingMode.None, [LuaProfilingMode.Shutdown, LuaProfilingMode.None])
  | m, _ => (m, [])

/-- Claim C6: every mode change performed by `IScriptProfiler_Tick` walks
edges of the cycle `None → Setup → Profiling → Shutdown → None` only (the
trace of modes passed through chains by `cycleEdge` from the starting
mode and ends at the returned mode); calling with `begin = true` while
already `Profiling` is a no-op, and calling with `begin = false` while
`None` is a no-op. -/
theorem profiler_tick_cycle (m : LuaProfilingMode) (b : Bool) :
    List.Chain cycleEdge m (IScriptProfiler_Tick m b).2 ∧
    ((IScriptProfiler_Tick m b).2.getLastD m = (IScriptProfiler_Tick m b).1) ∧
    (IScriptProfiler_Tick LuaProfilingMode.Profiling true =
      (LuaProfilingMode.Profiling, [])) ∧
    (IScriptProfiler_Tick LuaProfilingMode.None false =
      (LuaProfilingMode.None, [])) := by
  cases m <;> cases b <;>
    exact ⟨by simp [IScriptProfiler_Tick, cycleEdge, List.chain_cons], rfl, rfl, rfl⟩

end fx
